import Mathlib

set_option maxRecDepth 4000

/-!
# Verification of the Tez recovery/history event subsystem

Shallow embedding of `TaskAttemptFinishedEvent` (package
`org.apache.tez.dag.history.events`) and the codec/framing layer around it.
Java reference semantics are modelled with `Option` for nullable fields,
`Except JError` for thrown exceptions, and `List Nat` for byte streams.
-/

/-- Java exceptions that the modelled code can raise.  The first three are
unguarded runtime exceptions; the `io` constructors correspond to the
`IOException`s thrown by the stream layer. -/
inductive JError
  | nullPointer
  | arrayIndexOutOfBounds
  | illegalArgument
  | ioNoData
  | ioTruncated
  | invalidProto
deriving DecidableEq, Repr

/-- Modelled from the spec: `TezTaskAttemptID` (an EntityID) is an opaque
hierarchical identifier with a stable string form; the class is not under
`src/`, only its `toString`/`fromString` conversions are used by the event
codec, so it is modelled as its stable string form. -/
structure TezTaskAttemptID where
  repr : String
deriving DecidableEq, Repr

def TezTaskAttemptID.toString (t : TezTaskAttemptID) : String := t.repr

def TezTaskAttemptID.fromString (s : String) : TezTaskAttemptID := { repr := s }

/-- Modelled from the spec: the closed terminal-state enumeration
(`SUCCEEDED`/`FAILED`/`KILLED`); `oldrecords.TaskAttemptState` itself is not
under `src/`.  `fromProto` indexes `values` by the raw ordinal. -/
inductive TaskAttemptState
  | SUCCEEDED
  | FAILED
  | KILLED
deriving DecidableEq, Repr

/-- Java `TaskAttemptState.values()`, in declaration order. -/
def TaskAttemptState.values : List TaskAttemptState :=
  [TaskAttemptState.SUCCEEDED, TaskAttemptState.FAILED, TaskAttemptState.KILLED]

/-- Java `Enum.ordinal()` for `TaskAttemptState`. -/
def TaskAttemptState.ordinal : TaskAttemptState → Nat
  | TaskAttemptState.SUCCEEDED => 0
  | TaskAttemptState.FAILED => 1
  | TaskAttemptState.KILLED => 2

/-- Modelled from the spec: `TaskAttemptTerminationCause`, the optional error
cause enum (not under `src/`); the codec only uses `name()` and
`valueOf(name)`, the latter failing on an unrecognized name. -/
inductive TaskAttemptTerminationCause
  | UNKNOWN_ERROR
  | APPLICATION_ERROR
  | CONTAINER_EXITED
deriving DecidableEq, Repr

/-- Java `Enum.name()` for `TaskAttemptTerminationCause`. -/
def TaskAttemptTerminationCause.name : TaskAttemptTerminationCause → String
  | TaskAttemptTerminationCause.UNKNOWN_ERROR => "UNKNOWN_ERROR"
  | TaskAttemptTerminationCause.APPLICATION_ERROR => "APPLICATION_ERROR"
  | TaskAttemptTerminationCause.CONTAINER_EXITED => "CONTAINER_EXITED"

/-- Java `Enum.valueOf` for `TaskAttemptTerminationCause`: `none` models the
`IllegalArgumentException` raised on an unrecognized name. -/
def TaskAttemptTerminationCause.valueOf (s : String) : Option TaskAttemptTerminationCause :=
  if s = "UNKNOWN_ERROR" then some TaskAttemptTerminationCause.UNKNOWN_ERROR
  else if s = "APPLICATION_ERROR" then some TaskAttemptTerminationCause.APPLICATION_ERROR
  else if s = "CONTAINER_EXITED" then some TaskAttemptTerminationCause.CONTAINER_EXITED
  else none

/-- Modelled from the spec: optional aggregate counters (`TezCounters`, not
under `src/`), as a bag of named counter values. -/
structure TezCounters where
  counters : List (String × Int)
deriving DecidableEq, Repr

/-- Modelled from the spec: the protobuf form of `TezCounters`. -/
structure TezCountersProto where
  counters : List (String × Int)
deriving DecidableEq, Repr

/-- Modelled from the spec: `DagTypeConverters.convertTezCountersToProto`
(not under `src/`), the encoding half of an inverse conversion pair. -/
def convertTezCountersToProto (c : TezCounters) : TezCountersProto :=
  { counters := c.counters }

/-- Modelled from the spec: `DagTypeConverters.convertTezCountersFromProto`
(not under `src/`), the decoding half of an inverse conversion pair. -/
def convertTezCountersFromProto (p : TezCountersProto) : TezCounters :=
  { counters := p.counters }

/-- Modelled from the spec: `DataEventDependencyInfo`, an immutable causal
edge from an upstream generated event to this attempt (class not under
`src/`): a timestamp and the causal attempt id. -/
structure DataEventDependencyInfo where
  timestamp : Int
  taId : Option String
deriving DecidableEq, Repr

/-- Modelled from the spec: protobuf form of `DataEventDependencyInfo`. -/
structure DataEventDependencyInfoProto where
  timestamp : Int
  taId : Option String
deriving DecidableEq, Repr

/-- Modelled from the spec: `DataEventDependencyInfo.toProto` (not under
`src/`), half of an inverse conversion pair. -/
def DataEventDependencyInfo.toProto (d : DataEventDependencyInfo) : DataEventDependencyInfoProto :=
  { timestamp := d.timestamp, taId := d.taId }

/-- Modelled from the spec: `DataEventDependencyInfo.fromProto` (not under
`src/`), half of an inverse conversion pair. -/
def DataEventDependencyInfo.fromProto (d : DataEventDependencyInfoProto) : DataEventDependencyInfo :=
  { timestamp := d.timestamp, taId := d.taId }

/-- Modelled from the spec: a generated downstream event reference
(`TezEvent`, not under `src/`), opaque to this codec. -/
structure TezEvent where
  payload : Nat
deriving DecidableEq, Repr

/-- Modelled from the spec: protobuf form of `TezEvent`. -/
structure TezEventProto where
  payload : Nat
deriving DecidableEq, Repr

/-- Modelled from the spec: `TezEventUtils.toProto` (not under `src/`). -/
def TezEventUtils.toProto (e : TezEvent) : TezEventProto :=
  { payload := e.payload }

/-- Modelled from the spec: `TezEventUtils.fromProto` (not under `src/`). -/
def TezEventUtils.fromProto (p : TezEventProto) : TezEvent :=
  { payload := p.payload }

/-- Modelled from the spec: YARN `ContainerId`, used by the codec only
through its stable string form. -/
structure ContainerId where
  repr : String
deriving DecidableEq, Repr

def ContainerId.toString (c : ContainerId) : String := c.repr

/-- Modelled from the spec: YARN `NodeId`, used by the codec only through
its stable string form. -/
structure NodeId where
  repr : String
deriving DecidableEq, Repr

def NodeId.toString (n : NodeId) : String := n.repr

/-- Modelled from the spec: `ConverterUtils.toContainerId` (not under
`src/`), inverse of `ContainerId.toString`. -/
def ConverterUtils.toContainerId (s : String) : ContainerId := { repr := s }

/-- Modelled from the spec: `ConverterUtils.toNodeId` (not under `src/`),
inverse of `NodeId.toString`. -/
def ConverterUtils.toNodeId (s : String) : NodeId := { repr := s }

/-- `RecoveryProtos.TaskAttemptFinishedProto`: the protobuf message built by
`toProto` and consumed by `fromProto`.  Optional scalar fields carry
protobuf presence (`Option`); repeated fields are lists (absent = empty). -/
structure TaskAttemptFinishedProto where
  taskAttemptId : String
  state : Nat
  creationTime : Int
  allocationTime : Int
  startTime : Int
  finishTime : Int
  creationCausalTA : Option String
  diagnostics : Option String
  errorEnum : Option String
  counters : Option TezCountersProto
  dataEvents : List DataEventDependencyInfoProto
  taGeneratedEvents : List TezEventProto
  containerId : Option String
  nodeId : Option String
  nodeHttpAddress : Option String
deriving DecidableEq, Repr

/-- The event class `TaskAttemptFinishedEvent`.  Java reference fields that
may be `null` are `Option`; the `long` timestamps are `Int` (never null,
default `0`). -/
structure TaskAttemptFinishedEvent where
  taskAttemptId : Option TezTaskAttemptID
  vertexName : Option String
  creationTime : Int
  allocationTime : Int
  startTime : Int
  finishTime : Int
  creationCausalTA : Option TezTaskAttemptID
  state : Option TaskAttemptState
  diagnostics : Option String
  tezCounters : Option TezCounters
  error : Option TaskAttemptTerminationCause
  dataEvents : Option (List DataEventDependencyInfo)
  taGeneratedEvents : Option (List TezEvent)
  containerId : Option ContainerId
  nodeId : Option NodeId
  inProgressLogsUrl : Option String
  completedLogsUrl : Option String
  nodeHttpAddress : Option String
deriving DecidableEq, Repr

/-- The no-argument constructor `TaskAttemptFinishedEvent()`: every
reference field is `null`, every `long` is `0`. -/
def TaskAttemptFinishedEvent.mkEmpty : TaskAttemptFinishedEvent :=
  { taskAttemptId := none
    vertexName := none
    creationTime := 0
    allocationTime := 0
    startTime := 0
    finishTime := 0
    creationCausalTA := none
    state := none
    diagnostics := none
    tezCounters := none
    error := none
    dataEvents := none
    taGeneratedEvents := none
    containerId := none
    nodeId := none
    inProgressLogsUrl := none
    completedLogsUrl := none
    nodeHttpAddress := none }

/-- The full constructor `TaskAttemptFinishedEvent(taId, vertexName,
startTime, finishTime, state, error, diagnostics, counters, dataEvents,
taGeneratedEvents, creationTime, creationCausalTA, allocationTime,
containerId, nodeId, inProgressLogsUrl, completedLogsUrl,
nodeHttpAddress)`, assigning every declared field from its argument. -/
def TaskAttemptFinishedEvent.mkFull
    (taId : Option TezTaskAttemptID) (vertexName : Option String)
    (startTime finishTime : Int) (state : Option TaskAttemptState)
    (error : Option TaskAttemptTerminationCause) (diagnostics : Option String)
    (counters : Option TezCounters)
    (dataEvents : Option (List DataEventDependencyInfo))
    (taGeneratedEvents : Option (List TezEvent))
    (creationTime : Int) (creationCausalTA : Option TezTaskAttemptID)
    (allocationTime : Int) (containerId : Option ContainerId)
    (nodeId : Option NodeId) (inProgressLogsUrl : Option String)
    (completedLogsUrl : Option String) (nodeHttpAddress : Option String) :
    TaskAttemptFinishedEvent :=
  { taskAttemptId := taId
    vertexName := vertexName
    creationTime := creationTime
    allocationTime := allocationTime
    startTime := startTime
    finishTime := finishTime
    creationCausalTA := creationCausalTA
    state := state
    diagnostics := diagnostics
    tezCounters := counters
    error := error
    dataEvents := dataEvents
    taGeneratedEvents := taGeneratedEvents
    containerId := containerId
    nodeId := nodeId
    inProgressLogsUrl := inProgressLogsUrl
    completedLogsUrl := completedLogsUrl
    nodeHttpAddress := nodeHttpAddress }

def TaskAttemptFinishedEvent.getInProgressLogsUrl (e : TaskAttemptFinishedEvent) :
    Option String := e.inProgressLogsUrl

def TaskAttemptFinishedEvent.getCompletedLogsUrl (e : TaskAttemptFinishedEvent) :
    Option String := e.completedLogsUrl

/-- The guarded repeated-field encoding in `toProto`:
`if (xs != null && !xs.isEmpty()) for (x : xs) builder.add(f(x))`. -/
def encodeList (o : Option (List α)) (f : α → β) : List β :=
  match o with
  | none => []
  | some l => if l.isEmpty then [] else l.map f

/-- The guarded repeated-field decoding in `fromProto`:
`if (proto.getCount() > 0) this.xs = map(g, proto.getList())`, otherwise the
field keeps its current value. -/
def decodeList (pl : List β) (g : β → α) (cur : Option (List α)) : Option (List α) :=
  if 0 < pl.length then some (pl.map g) else cur

/-- The guarded optional-field decoding in `fromProto`:
`if (proto.hasF()) this.f = conv(proto.getF())`, otherwise the field keeps
its current value. -/
def presentOr (pf : Option β) (conv : β → α) (cur : Option α) : Option α :=
  match pf with
  | some v => some (conv v)
  | none => cur

/-- The `errorEnum` decoding step of `fromProto`:
`if (proto.hasErrorEnum()) this.error = TaskAttemptTerminationCause.valueOf(...)`,
where `valueOf` throws `IllegalArgumentException` on an unknown name. -/
def decodeError (pf : Option String) (cur : Option TaskAttemptTerminationCause) :
    Except JError (Option TaskAttemptTerminationCause) :=
  match pf with
  | none => Except.ok cur
  | some nm =>
    match TaskAttemptTerminationCause.valueOf nm with
    | some c => Except.ok (some c)
    | none => Except.error JError.illegalArgument

/-- The `state` decoding step of `fromProto`:
`TaskAttemptState.values()[proto.getState()]`, throwing
`ArrayIndexOutOfBoundsException` when the ordinal is out of range. -/
def indexState (n : Nat) : Except JError TaskAttemptState :=
  match TaskAttemptState.values[n]? with
  | some st => Except.ok st
  | none => Except.error JError.arrayIndexOutOfBounds

/-- `TaskAttemptFinishedEvent.toProto`: builds the proto; evaluating
`taskAttemptId.toString()` or `state.ordinal()` on an unset (`null`) field
throws a `NullPointerException`.  All other fields are null-guarded. -/
def TaskAttemptFinishedEvent.toProto (e : TaskAttemptFinishedEvent) :
    Except JError TaskAttemptFinishedProto :=
  match e.taskAttemptId with
  | none => Except.error JError.nullPointer
  | some taId =>
    match e.state with
    | none => Except.error JError.nullPointer
    | some st =>
      Except.ok
        { taskAttemptId := TezTaskAttemptID.toString taId
          state := TaskAttemptState.ordinal st
          creationTime := e.creationTime
          allocationTime := e.allocationTime
          startTime := e.startTime
          finishTime := e.finishTime
          creationCausalTA := Option.map TezTaskAttemptID.toString e.creationCausalTA
          diagnostics := e.diagnostics
          errorEnum := Option.map TaskAttemptTerminationCause.name e.error
          counters := Option.map convertTezCountersToProto e.tezCounters
          dataEvents := encodeList e.dataEvents DataEventDependencyInfo.toProto
          taGeneratedEvents := encodeList e.taGeneratedEvents TezEventUtils.toProto
          containerId := Option.map ContainerId.toString e.containerId
          nodeId := Option.map NodeId.toString e.nodeId
          nodeHttpAddress := e.nodeHttpAddress }

/-- `TaskAttemptFinishedEvent.fromProto`: repopulates the receiver `e` from
the proto.  Required fields are copied unconditionally; optional fields are
set only when present.  An out-of-range state ordinal or an unknown error
name raises the corresponding unguarded runtime exception. -/
def TaskAttemptFinishedEvent.fromProto (e : TaskAttemptFinishedEvent)
    (p : TaskAttemptFinishedProto) : Except JError TaskAttemptFinishedEvent :=
  match indexState p.state, decodeError p.errorEnum e.error with
  | Except.error er, _ => Except.error er
  | Except.ok _, Except.error er => Except.error er
  | Except.ok st, Except.ok errv =>
    Except.ok
      { e with
        taskAttemptId := some (TezTaskAttemptID.fromString p.taskAttemptId)
        state := some st
        creationTime := p.creationTime
        allocationTime := p.allocationTime
        startTime := p.startTime
        finishTime := p.finishTime
        creationCausalTA :=
          presentOr p.creationCausalTA TezTaskAttemptID.fromString e.creationCausalTA
        diagnostics := presentOr p.diagnostics (fun s => s) e.diagnostics
        error := errv
        tezCounters := presentOr p.counters convertTezCountersFromProto e.tezCounters
        dataEvents := decodeList p.dataEvents DataEventDependencyInfo.fromProto e.dataEvents
        taGeneratedEvents :=
          decodeList p.taGeneratedEvents TezEventUtils.fromProto e.taGeneratedEvents
        containerId := presentOr p.containerId ConverterUtils.toContainerId e.containerId
        nodeId := presentOr p.nodeId ConverterUtils.toNodeId e.nodeId
        nodeHttpAddress := presentOr p.nodeHttpAddress (fun s => s) e.nodeHttpAddress }

/-- `fromProto` on a freshly constructed event, as `Option`: the decode step
used at replay, forgetting which exception was raised. -/
def decodeOpt (p : TaskAttemptFinishedProto) : Option TaskAttemptFinishedEvent :=
  (TaskAttemptFinishedEvent.fromProto TaskAttemptFinishedEvent.mkEmpty p).toOption

/-- `decode(encode(e))` as an `Option`: `toProto` then `fromProto` on a
freshly constructed event. -/
def roundtripOpt (e : TaskAttemptFinishedEvent) : Option TaskAttemptFinishedEvent :=
  match TaskAttemptFinishedEvent.toProto e with
  | Except.error _ => none
  | Except.ok p => decodeOpt p

/-- Base-128 varint encoding of a natural number (little-endian groups of 7
bits, continuation bit 0x80), as written by protobuf's
`writeDelimitedTo` length prefix.  `fuel` makes the recursion structural. -/
def varintAux : Nat → Nat → List Nat
  | 0, n => [n % 128]
  | fuel + 1, n => if n < 128 then [n] else (n % 128 + 128) :: varintAux fuel (n / 128)

def varint (n : Nat) : List Nat := varintAux (n + 1) n

/-- Reads one varint from the front of a byte stream; `none` on truncation. -/
def readVarint : List Nat → Option (Nat × List Nat)
  | [] => none
  | b :: rest =>
    if b < 128 then some (b, rest)
    else
      match readVarint rest with
      | some (n, rest') => some (b - 128 + 128 * n, rest')
      | none => none

/-- Reads exactly `n` bytes; `none` on truncation. -/
def readBytesN : Nat → List Nat → Option (List Nat × List Nat)
  | 0, l => some ([], l)
  | _ + 1, [] => none
  | n + 1, b :: l =>
    match readBytesN n l with
    | some (bs, r) => some (b :: bs, r)
    | none => none

/-- Zigzag mapping of a signed value to a natural, for varint encoding. -/
def zigzag (i : Int) : Nat :=
  if 0 ≤ i then 2 * i.toNat else 2 * (-i).toNat - 1

/-- Inverse of `zigzag`. -/
def unzigzag (n : Nat) : Int :=
  if n % 2 = 0 then Int.ofNat (n / 2) else -Int.ofNat ((n + 1) / 2)

def natBytes (n : Nat) : List Nat := varint n

def intBytes (i : Int) : List Nat := varint (zigzag i)

def strBytes (s : String) : List Nat :=
  varint s.data.length ++ s.data.map Char.toNat

def optBytes (f : α → List Nat) : Option α → List Nat
  | none => [0]
  | some a => 1 :: f a

def listBytes (f : α → List Nat) (l : List α) : List Nat :=
  varint l.length ++ (l.map f).flatten

def readInt (l : List Nat) : Option (Int × List Nat) := do
  let (n, l1) ← readVarint l
  pure (unzigzag n, l1)

def readStr (l : List Nat) : Option (String × List Nat) := do
  let (n, l1) ← readVarint l
  let (bs, l2) ← readBytesN n l1
  pure (String.mk (bs.map Char.ofNat), l2)

def readOpt (rd : List Nat → Option (α × List Nat)) :
    List Nat → Option (Option α × List Nat)
  | 0 :: rest => some (none, rest)
  | 1 :: rest =>
    match rd rest with
    | some (a, r) => some (some a, r)
    | none => none
  | _ => none

def readListN (rd : List Nat → Option (α × List Nat)) :
    Nat → List Nat → Option (List α × List Nat)
  | 0, l => some ([], l)
  | n + 1, l =>
    match rd l with
    | some (a, l1) =>
      match readListN rd n l1 with
      | some (as, l2) => some (a :: as, l2)
      | none => none
    | none => none

def readListOf (rd : List Nat → Option (α × List Nat)) (l : List Nat) :
    Option (List α × List Nat) := do
  let (n, l1) ← readVarint l
  readListN rd n l1

def counterBytes (c : String × Int) : List Nat := strBytes c.1 ++ intBytes c.2

def readCounter (l : List Nat) : Option ((String × Int) × List Nat) := do
  let (s, l1) ← readStr l
  let (i, l2) ← readInt l1
  pure ((s, i), l2)

def countersBytes (c : TezCountersProto) : List Nat := listBytes counterBytes c.counters

def readCounters (l : List Nat) : Option (TezCountersProto × List Nat) := do
  let (cs, l1) ← readListOf readCounter l
  pure ({ counters := cs }, l1)

def dediBytes (d : DataEventDependencyInfoProto) : List Nat :=
  intBytes d.timestamp ++ optBytes strBytes d.taId

def readDedi (l : List Nat) : Option (DataEventDependencyInfoProto × List Nat) := do
  let (t, l1) ← readInt l
  let (ta, l2) ← readOpt readStr l1
  pure ({ timestamp := t, taId := ta }, l2)

def tezEventBytes (e : TezEventProto) : List Nat := natBytes e.payload

def readTezEvent (l : List Nat) : Option (TezEventProto × List Nat) := do
  let (n, l1) ← readVarint l
  pure ({ payload := n }, l1)

/-- Modelled from the spec: serialization of `TaskAttemptFinishedProto`
(protobuf-generated code, not under `src/`): the fields in declared order,
optional fields with an explicit presence byte, repeated fields with a
count. -/
def protoToBytes (p : TaskAttemptFinishedProto) : List Nat :=
  strBytes p.taskAttemptId ++ natBytes p.state ++
  intBytes p.creationTime ++ intBytes p.allocationTime ++
  intBytes p.startTime ++ intBytes p.finishTime ++
  optBytes strBytes p.creationCausalTA ++ optBytes strBytes p.diagnostics ++
  optBytes strBytes p.errorEnum ++ optBytes countersBytes p.counters ++
  listBytes dediBytes p.dataEvents ++ listBytes tezEventBytes p.taGeneratedEvents ++
  optBytes strBytes p.containerId ++ optBytes strBytes p.nodeId ++
  optBytes strBytes p.nodeHttpAddress

/-- Modelled from the spec: parse of `TaskAttemptFinishedProto` from bytes
(protobuf-generated code, not under `src/`); `none` on malformed input. -/
def protoFromBytes (l : List Nat) : Option (TaskAttemptFinishedProto × List Nat) := do
  let (taId, l1) ← readStr l
  let (st, l2) ← readVarint l1
  let (ct, l3) ← readInt l2
  let (at_, l4) ← readInt l3
  let (stt, l5) ← readInt l4
  let (ft, l6) ← readInt l5
  let (cc, l7) ← readOpt readStr l6
  let (dg, l8) ← readOpt readStr l7
  let (ee, l9) ← readOpt readStr l8
  let (cn, l10) ← readOpt readCounters l9
  let (de, l11) ← readListOf readDedi l10
  let (tg, l12) ← readListOf readTezEvent l11
  let (ci, l13) ← readOpt readStr l12
  let (ni, l14) ← readOpt readStr l13
  let (nh, l15) ← readOpt readStr l14
  pure
    ({ taskAttemptId := taId
       state := st
       creationTime := ct
       allocationTime := at_
       startTime := stt
       finishTime := ft
       creationCausalTA := cc
       diagnostics := dg
       errorEnum := ee
       counters := cn
       dataEvents := de
       taGeneratedEvents := tg
       containerId := ci
       nodeId := ni
       nodeHttpAddress := nh }, l15)

/-- Protobuf `writeDelimitedTo`: a varint length prefix followed by the
serialized message bytes — the frame layout produced by `toProtoStream`. -/
def writeDelimited (payload : List Nat) : List Nat :=
  varint payload.length ++ payload

/-- `TaskAttemptFinishedEvent.toProtoStream`:
`toProto().writeDelimitedTo(outputStream)`. -/
def TaskAttemptFinishedEvent.toProtoStream (e : TaskAttemptFinishedEvent) :
    Except JError (List Nat) :=
  match TaskAttemptFinishedEvent.toProto e with
  | Except.error er => Except.error er
  | Except.ok p => Except.ok (writeDelimited (protoToBytes p))

/-- Protobuf `parseDelimitedFrom` together with its null contract: `ok none`
on a cleanly empty stream, an `IOException` on a truncated length prefix or
payload, an `InvalidProtocolBufferException` on a malformed payload, and
`ok (some p)` when one complete frame is read. -/
def parseDelimitedFrom (bytes : List Nat) :
    Except JError (Option TaskAttemptFinishedProto) :=
  match bytes with
  | [] => Except.ok none
  | _ :: _ =>
    match readVarint bytes with
    | none => Except.error JError.ioTruncated
    | some (len, after) =>
      match readBytesN len after with
      | none => Except.error JError.ioTruncated
      | some (payload, _) =>
        match protoFromBytes payload with
        | some (p, []) => Except.ok (some p)
        | _ => Except.error JError.invalidProto

/-- `TaskAttemptFinishedEvent.fromProtoStream`: parses one delimited frame
and throws `IOException("No data found in stream")` when
`parseDelimitedFrom` returns null. -/
def TaskAttemptFinishedEvent.fromProtoStream (e : TaskAttemptFinishedEvent)
    (bytes : List Nat) : Except JError TaskAttemptFinishedEvent :=
  match parseDelimitedFrom bytes with
  | Except.error er => Except.error er
  | Except.ok none => Except.error JError.ioNoData
  | Except.ok (some p) => TaskAttemptFinishedEvent.fromProto e p

/-- Modelled from the spec: the Reconstructor's per-entity replay phase
(UNSEEN, CREATED, RUNNING, TERMINAL); the Reconstructor is not under
`src/`. -/
inductive EntityPhase
  | UNSEEN
  | CREATED
  | RUNNING
  | TERMINAL (st : Option TaskAttemptState)
deriving DecidableEq, Repr

/-- Modelled from the spec: per-entity reconstructed state — the current
phase plus the recoverable-anomaly flag. -/
structure EntityState where
  phase : EntityPhase
  anomaly : Bool
deriving DecidableEq, Repr

/-- Modelled from the spec: `apply(state, event)` of the Reconstructor for a
`TaskAttemptFinished` event (not under `src/`): folds the event into the
entity state, driving the phase to TERMINAL; a finish seen before RUNNING is
a recoverable anomaly — the missing intermediate states are synthesized and
the anomaly flag is set. -/
def Reconstructor.apply (s : EntityState) (e : TaskAttemptFinishedEvent) : EntityState :=
  match s.phase with
  | EntityPhase.RUNNING => { phase := EntityPhase.TERMINAL e.state, anomaly := s.anomaly }
  | EntityPhase.TERMINAL _ => { phase := EntityPhase.TERMINAL e.state, anomaly := s.anomaly }
  | _ => { phase := EntityPhase.TERMINAL e.state, anomaly := true }

/-- Boolean form of the timestamp ordering invariant
finishTime ≥ startTime ≥ allocationTime ≥ creationTime. -/
def timestampsOrdered (e : TaskAttemptFinishedEvent) : Bool :=
  decide (e.startTime ≤ e.finishTime) && decide (e.allocationTime ≤ e.startTime) &&
    decide (e.creationTime ≤ e.allocationTime)

/-! ## Helper lemmas about the conversion pairs and decoding guards -/

@[simp]
theorem TezTaskAttemptID.fromString_toString (t : TezTaskAttemptID) :
    TezTaskAttemptID.fromString (TezTaskAttemptID.toString t) = t := rfl

@[simp]
theorem ConverterUtils.toContainerId_toString (c : ContainerId) :
    ConverterUtils.toContainerId (ContainerId.toString c) = c := rfl

@[simp]
theorem ConverterUtils.toNodeId_toString (n : NodeId) :
    ConverterUtils.toNodeId (NodeId.toString n) = n := rfl

@[simp]
theorem convertTezCounters_from_to (c : TezCounters) :
    convertTezCountersFromProto (convertTezCountersToProto c) = c := rfl

@[simp]
theorem dedi_fromProto_toProto (d : DataEventDependencyInfo) :
    DataEventDependencyInfo.fromProto (DataEventDependencyInfo.toProto d) = d := rfl

@[simp]
theorem tezEvent_fromProto_toProto (e : TezEvent) :
    TezEventUtils.fromProto (TezEventUtils.toProto e) = e := rfl

@[simp]
theorem TaskAttemptTerminationCause.valueOf_name (c : TaskAttemptTerminationCause) :
    TaskAttemptTerminationCause.valueOf (TaskAttemptTerminationCause.name c) = some c := by
  cases c <;> rfl

@[simp]
theorem indexState_ordinal (st : TaskAttemptState) :
    indexState (TaskAttemptState.ordinal st) = Except.ok st := by
  cases st <;> rfl

@[simp]
theorem decodeError_map_name (c : Option TaskAttemptTerminationCause) :
    decodeError (Option.map TaskAttemptTerminationCause.name c) none = Except.ok c := by
  cases c <;> simp [decodeError]

@[simp]
theorem presentOr_none (pf : Option β) (conv : β → α) :
    presentOr pf conv none = Option.map conv pf := by
  cases pf <;> rfl

theorem decodeList_encodeList (o : Option (List α)) (f : α → β) (g : β → α)
    (hgf : ∀ x, g (f x) = x) (h : o ≠ some []) :
    decodeList (encodeList o f) g none = o := by
  match o with
  | none => rfl
  | some [] => exact absurd rfl h
  | some (x :: xs) =>
    have hmap : ∀ l : List α, List.map (g ∘ f) l = l := by
      intro l
      induction l with
      | nil => rfl
      | cons a as ih => simp [Function.comp, hgf, ih]
    simp [encodeList, decodeList, List.map_map, hmap, hgf]

attribute [ext] TaskAttemptFinishedEvent

@[simp]
theorem option_map_ta_from_to (o : Option TezTaskAttemptID) :
    Option.map (TezTaskAttemptID.fromString ∘ TezTaskAttemptID.toString) o = o := by
  cases o <;> rfl

@[simp]
theorem option_map_counters_from_to (o : Option TezCounters) :
    Option.map (convertTezCountersFromProto ∘ convertTezCountersToProto) o = o := by
  cases o <;> rfl

@[simp]
theorem option_map_containerId_from_to (o : Option ContainerId) :
    Option.map (ConverterUtils.toContainerId ∘ ContainerId.toString) o = o := by
  cases o <;> rfl

@[simp]
theorem option_map_nodeId_from_to (o : Option NodeId) :
    Option.map (ConverterUtils.toNodeId ∘ NodeId.toString) o = o := by
  cases o <;> rfl

/-! ## Concrete fixtures -/

/-- An all-defaults proto value used as a base for concrete test protos. -/
def protoBase : TaskAttemptFinishedProto :=
  { taskAttemptId := ""
    state := 0
    creationTime := 0
    allocationTime := 0
    startTime := 0
    finishTime := 0
    creationCausalTA := none
    diagnostics := none
    errorEnum := none
    counters := none
    dataEvents := []
    taGeneratedEvents := []
    containerId := none
    nodeId := none
    nodeHttpAddress := none }

/-! ## C1 -/

/-- C1 (amended): for every valid event whose `taskAttemptId` and `state`
are set, whose `vertexName`, `inProgressLogsUrl` and `completedLogsUrl` are
null, and whose `dataEvents`/`taGeneratedEvents` are not present-but-empty,
`fromProto` applied to the result of `toProto` reconstructs the event
exactly. -/
theorem c1_roundtrip_restores (e : TaskAttemptFinishedEvent)
    (ta : TezTaskAttemptID) (st : TaskAttemptState)
    (h1 : e.taskAttemptId = some ta) (h2 : e.state = some st)
    (h3 : e.vertexName = none) (h4 : e.inProgressLogsUrl = none)
    (h5 : e.completedLogsUrl = none)
    (h6 : e.dataEvents ≠ some []) (h7 : e.taGeneratedEvents ≠ some []) :
    roundtripOpt e = some e := by
  have hde : decodeList (encodeList e.dataEvents DataEventDependencyInfo.toProto)
      DataEventDependencyInfo.fromProto none = e.dataEvents :=
    decodeList_encodeList _ _ _ (fun x => rfl) h6
  have htg : decodeList (encodeList e.taGeneratedEvents TezEventUtils.toProto)
      TezEventUtils.fromProto none = e.taGeneratedEvents :=
    decodeList_encodeList _ _ _ (fun x => rfl) h7
  simp only [roundtripOpt, TaskAttemptFinishedEvent.toProto, h1, h2]
  simp only [decodeOpt, TaskAttemptFinishedEvent.fromProto,
    TaskAttemptFinishedEvent.mkEmpty, indexState_ordinal, decodeError_map_name,
    Except.toOption]
  simp only [Option.some.injEq]
  apply TaskAttemptFinishedEvent.ext <;>
    simp [h1, h2, h3, h4, h5, hde, htg, presentOr_none, Option.map_map, Function.comp]

/-- A valid event carrying a vertex name, used to refute the unrestricted
round-trip claim. -/
def ev1 : TaskAttemptFinishedEvent :=
  TaskAttemptFinishedEvent.mkFull (some { repr := "a1" }) (some ("v1"))
    100 150 (some TaskAttemptState.SUCCEEDED) none none none none none
    90 none 95 none none none none none

/-- C1 counterexample: `ev1` has `vertexName = "v1"`; decoding the bytes
produced by encoding it succeeds but does not reconstruct the event —
`vertexName` is never written to the proto, so the round-trip loses it. -/
theorem c1_counterexample :
    roundtripOpt ev1 ≠ some ev1 ∧ (roundtripOpt ev1).isSome = true ∧
      Option.map TaskAttemptFinishedEvent.vertexName (roundtripOpt ev1) = some none := by
  decide

/-- A valid event with no vertex name or log URLs and every other optional
field present. -/
def ev1w : TaskAttemptFinishedEvent :=
  TaskAttemptFinishedEvent.mkFull (some { repr := "a1" }) none
    100 150 (some TaskAttemptState.FAILED)
    (some TaskAttemptTerminationCause.UNKNOWN_ERROR) (some ("diag"))
    (some { counters := [("c", 4)] })
    (some [{ timestamp := 7, taId := some ("u") }]) (some [{ payload := 2 }])
    90 (some { repr := "a0" }) 95 (some { repr := "cont" })
    (some { repr := "node" }) none none (some ("http"))

/-- Witness for C1 at the concrete event `ev1w`. -/
theorem c1_witness : roundtripOpt ev1w = some ev1w :=
  c1_roundtrip_restores ev1w { repr := "a1" } TaskAttemptState.FAILED
    rfl rfl rfl rfl rfl (by decide) (by decide)

/-! ## C2 -/

/-- An event built with the full constructor, passing both log URLs. -/
def ev2 : TaskAttemptFinishedEvent :=
  TaskAttemptFinishedEvent.mkFull (some { repr := "a2" }) (some ("v2"))
    100 150 (some TaskAttemptState.SUCCEEDED) none none none none none
    90 none 95 none none (some ("inprog")) (some ("done")) none

/-- C2 counterexample: the full constructor does set
`inProgressLogsUrl`/`completedLogsUrl` — for `ev2`, built with both URLs,
the getters return the passed values, not the absent sentinel. -/
theorem c2_counterexample :
    TaskAttemptFinishedEvent.getInProgressLogsUrl ev2 ≠ none ∧
      TaskAttemptFinishedEvent.getCompletedLogsUrl ev2 ≠ none := by
  decide

/-- C2 (amended): the full constructor assigns `inProgressLogsUrl` and
`completedLogsUrl` from its arguments, and the getters return exactly the
passed values (the absent sentinel only when `null` was passed). -/
theorem c2_constructor_sets_logsUrls
    (taId : Option TezTaskAttemptID) (vertexName : Option String)
    (startTime finishTime : Int) (state : Option TaskAttemptState)
    (error : Option TaskAttemptTerminationCause) (diagnostics : Option String)
    (counters : Option TezCounters)
    (dataEvents : Option (List DataEventDependencyInfo))
    (taGeneratedEvents : Option (List TezEvent))
    (creationTime : Int) (creationCausalTA : Option TezTaskAttemptID)
    (allocationTime : Int) (containerId : Option ContainerId)
    (nodeId : Option NodeId) (inProgressLogsUrl : Option String)
    (completedLogsUrl : Option String) (nodeHttpAddress : Option String) :
    TaskAttemptFinishedEvent.getInProgressLogsUrl
        (TaskAttemptFinishedEvent.mkFull taId vertexName startTime finishTime
          state error diagnostics counters dataEvents taGeneratedEvents
          creationTime creationCausalTA allocationTime containerId nodeId
          inProgressLogsUrl completedLogsUrl nodeHttpAddress) = inProgressLogsUrl ∧
      TaskAttemptFinishedEvent.getCompletedLogsUrl
        (TaskAttemptFinishedEvent.mkFull taId vertexName startTime finishTime
          state error diagnostics counters dataEvents taGeneratedEvents
          creationTime creationCausalTA allocationTime containerId nodeId
          inProgressLogsUrl completedLogsUrl nodeHttpAddress) = completedLogsUrl :=
  ⟨rfl, rfl⟩

/-! ## C3 -/

/-- C3 (confirmed): decoding a proto in which an optional field is absent
leaves that field at the fresh event's `null` sentinel — never a
substituted default. -/
theorem c3_absent_decodes_to_none (p : TaskAttemptFinishedProto)
    (e' : TaskAttemptFinishedEvent)
    (h : TaskAttemptFinishedEvent.fromProto TaskAttemptFinishedEvent.mkEmpty p =
      Except.ok e') :
    (p.creationCausalTA = none → e'.creationCausalTA = none) ∧
      (p.diagnostics = none → e'.diagnostics = none) ∧
      (p.errorEnum = none → e'.error = none) ∧
      (p.counters = none → e'.tezCounters = none) ∧
      (p.containerId = none → e'.containerId = none) ∧
      (p.nodeId = none → e'.nodeId = none) ∧
      (p.nodeHttpAddress = none → e'.nodeHttpAddress = none) := by
  rcases hst : indexState p.state with er | st <;>
    rcases her : decodeError p.errorEnum TaskAttemptFinishedEvent.mkEmpty.error
      with er2 | errv <;>
    simp only [TaskAttemptFinishedEvent.fromProto, hst, her] at h
  · exact absurd h (by simp)
  · exact absurd h (by simp)
  · exact absurd h (by simp)
  simp only [Except.ok.injEq] at h
  subst h
  refine ⟨?_, ?_, ?_, ?_, ?_, ?_, ?_⟩ <;> intro hx
  · simp [TaskAttemptFinishedEvent.mkEmpty, presentOr, hx]
  · simp [TaskAttemptFinishedEvent.mkEmpty, presentOr, hx]
  · rw [hx] at her
    simp [decodeError, TaskAttemptFinishedEvent.mkEmpty] at her
    simp [her.symm]
  · simp [TaskAttemptFinishedEvent.mkEmpty, presentOr, hx]
  · simp [TaskAttemptFinishedEvent.mkEmpty, presentOr, hx]
  · simp [TaskAttemptFinishedEvent.mkEmpty, presentOr, hx]
  · simp [TaskAttemptFinishedEvent.mkEmpty, presentOr, hx]

/-- A proto with every optional field absent. -/
def p3 : TaskAttemptFinishedProto := { protoBase with taskAttemptId := "t3" }

/-- The event decoded from `p3`. -/
def e3 : TaskAttemptFinishedEvent :=
  { TaskAttemptFinishedEvent.mkEmpty with
    taskAttemptId := some { repr := "t3" }
    state := some TaskAttemptState.SUCCEEDED }

/-- Witness for C3 at the concrete proto `p3`. -/
theorem c3_witness :
    (p3.creationCausalTA = none → e3.creationCausalTA = none) ∧
      (p3.diagnostics = none → e3.diagnostics = none) ∧
      (p3.errorEnum = none → e3.error = none) ∧
      (p3.counters = none → e3.tezCounters = none) ∧
      (p3.containerId = none → e3.containerId = none) ∧
      (p3.nodeId = none → e3.nodeId = none) ∧
      (p3.nodeHttpAddress = none → e3.nodeHttpAddress = none) :=
  c3_absent_decodes_to_none p3 e3 rfl

/-! ## C5 -/

/-- C5 (confirmed): encoding an event whose task attempt id or state is
unset fails (with the `NullPointerException` raised by
`taskAttemptId.toString()` / `state.ordinal()`), and `toProtoStream`
produces no bytes for it.  The four timestamps are primitive `long`s and
cannot be unset, so only the two nullable required fields can trigger
this. -/
theorem c5_unset_required_fails (e : TaskAttemptFinishedEvent)
    (h : e.taskAttemptId = none ∨ e.state = none) :
    TaskAttemptFinishedEvent.toProto e = Except.error JError.nullPointer ∧
      TaskAttemptFinishedEvent.toProtoStream e = Except.error JError.nullPointer := by
  have htp : TaskAttemptFinishedEvent.toProto e = Except.error JError.nullPointer := by
    rcases h with h | h
    · simp [TaskAttemptFinishedEvent.toProto, h]
    · rcases hta : e.taskAttemptId with _ | ta <;>
        simp [TaskAttemptFinishedEvent.toProto, hta, h]
  exact ⟨htp, by simp [TaskAttemptFinishedEvent.toProtoStream, htp]⟩

/-- Witness for C5 at the empty-constructed event. -/
theorem c5_witness :
    TaskAttemptFinishedEvent.toProto TaskAttemptFinishedEvent.mkEmpty =
        Except.error JError.nullPointer ∧
      TaskAttemptFinishedEvent.toProtoStream TaskAttemptFinishedEvent.mkEmpty =
        Except.error JError.nullPointer :=
  c5_unset_required_fails TaskAttemptFinishedEvent.mkEmpty (Or.inl rfl)

/-! ## C6 -/

/-- C6 (amended): `fromProto` copies the four timestamps verbatim from the
frame with no validation, so a decoded event satisfies the ordering
invariant exactly when the encoded values already did. -/
theorem c6_decode_copies_timestamps (p : TaskAttemptFinishedProto)
    (e' : TaskAttemptFinishedEvent)
    (h : TaskAttemptFinishedEvent.fromProto TaskAttemptFinishedEvent.mkEmpty p =
      Except.ok e') :
    e'.creationTime = p.creationTime ∧ e'.allocationTime = p.allocationTime ∧
      e'.startTime = p.startTime ∧ e'.finishTime = p.finishTime := by
  rcases hst : indexState p.state with er | st <;>
    rcases her : decodeError p.errorEnum TaskAttemptFinishedEvent.mkEmpty.error
      with er2 | errv <;>
    simp only [TaskAttemptFinishedEvent.fromProto, hst, her] at h
  · exact absurd h (by simp)
  · exact absurd h (by simp)
  · exact absurd h (by simp)
  simp only [Except.ok.injEq] at h
  subst h
  exact ⟨rfl, rfl, rfl, rfl⟩

/-- A well-formed proto whose timestamps violate the ordering invariant
(startTime 5 but finishTime 0). -/
def p6bad : TaskAttemptFinishedProto :=
  { protoBase with taskAttemptId := "t6", startTime := 5 }

/-- C6 counterexample: decoding `p6bad` succeeds and yields an event (all
four timestamps present) that violates
finishTime ≥ startTime ≥ allocationTime ≥ creationTime. -/
theorem c6_counterexample :
    Option.map timestampsOrdered (decodeOpt p6bad) = some false := by
  decide

/-- The event decoded from `protoBase`. -/
def e6 : TaskAttemptFinishedEvent :=
  { TaskAttemptFinishedEvent.mkEmpty with
    taskAttemptId := some { repr := "" }
    state := some TaskAttemptState.SUCCEEDED }

/-- Witness for C6 at the concrete proto `protoBase`. -/
theorem c6_witness :
    e6.creationTime = protoBase.creationTime ∧
      e6.allocationTime = protoBase.allocationTime ∧
      e6.startTime = protoBase.startTime ∧ e6.finishTime = protoBase.finishTime :=
  c6_decode_copies_timestamps protoBase e6 rfl

/-! ## C7 -/

/-- C7 (confirmed, spec-modelled): Reconstructor replay application is
idempotent — for every entity state `s` and decoded event `e`,
`apply (apply s e) e = apply s e`; `apply` is a pure Lean function of its
arguments. -/
theorem c7_apply_idempotent (s : EntityState) (e : TaskAttemptFinishedEvent) :
    Reconstructor.apply (Reconstructor.apply s e) e = Reconstructor.apply s e := by
  rcases s with ⟨ph, a⟩
  cases ph <;> rfl

/-! ## C9 -/

/-- C9 (confirmed): an event whose `dataEvents`/`taGeneratedEvents` lists
are present but empty encodes to a proto with no entries for them, and
decoding that proto reconstructs the lists as the absent sentinel `null` —
an empty-but-present list does not survive encode∘decode. -/
theorem c9_empty_lists_collapse (e : TaskAttemptFinishedEvent)
    (p : TaskAttemptFinishedProto) (e' : TaskAttemptFinishedEvent)
    (hd : e.dataEvents = some []) (hg : e.taGeneratedEvents = some [])
    (htp : TaskAttemptFinishedEvent.toProto e = Except.ok p)
    (hfp : TaskAttemptFinishedEvent.fromProto TaskAttemptFinishedEvent.mkEmpty p =
      Except.ok e') :
    p.dataEvents = [] ∧ p.taGeneratedEvents = [] ∧
      e'.dataEvents = none ∧ e'.taGeneratedEvents = none := by
  rcases hta : e.taskAttemptId with _ | ta
  · simp [TaskAttemptFinishedEvent.toProto, hta] at htp
  rcases hstf : e.state with _ | st
  · simp [TaskAttemptFinishedEvent.toProto, hta, hstf] at htp
  simp only [TaskAttemptFinishedEvent.toProto, hta, hstf, Except.ok.injEq] at htp
  subst htp
  have hpd : encodeList e.dataEvents DataEventDependencyInfo.toProto =
      ([] : List DataEventDependencyInfoProto) := by
    simp [encodeList, hd]
  have hpg : encodeList e.taGeneratedEvents TezEventUtils.toProto =
      ([] : List TezEventProto) := by
    simp [encodeList, hg]
  rcases hst : indexState (TaskAttemptState.ordinal st) with er | st2 <;>
    rcases her : decodeError (Option.map TaskAttemptTerminationCause.name e.error)
      TaskAttemptFinishedEvent.mkEmpty.error with er2 | errv <;>
    simp only [TaskAttemptFinishedEvent.fromProto, hst, her] at hfp
  · exact absurd hfp (by simp)
  · exact absurd hfp (by simp)
  · exact absurd hfp (by simp)
  simp only [Except.ok.injEq] at hfp
  subst hfp
  refine ⟨hpd, hpg, ?_, ?_⟩ <;>
    simp [TaskAttemptFinishedEvent.mkEmpty, decodeList, hpd, hpg]

/-- An event with present-but-empty `dataEvents` and `taGeneratedEvents`. -/
def ev9 : TaskAttemptFinishedEvent :=
  TaskAttemptFinishedEvent.mkFull (some { repr := "a9" }) none
    1 2 (some TaskAttemptState.KILLED) none none none (some []) (some [])
    0 none 0 none none none none none

/-- The proto encoded from `ev9`. -/
def p9 : TaskAttemptFinishedProto :=
  { protoBase with taskAttemptId := "a9", state := 2, startTime := 1, finishTime := 2 }

/-- The event decoded from `p9`. -/
def e9 : TaskAttemptFinishedEvent :=
  { TaskAttemptFinishedEvent.mkEmpty with
    taskAttemptId := some { repr := "a9" }
    state := some TaskAttemptState.KILLED
    startTime := 1
    finishTime := 2 }

/-- Witness for C9 at the concrete event `ev9`. -/
theorem c9_witness :
    p9.dataEvents = [] ∧ p9.taGeneratedEvents = [] ∧
      e9.dataEvents = none ∧ e9.taGeneratedEvents = none :=
  c9_empty_lists_collapse ev9 p9 e9 rfl rfl rfl rfl

/-! ## C4 -/

/-- C4 (amended): `fromProtoStream` raises an error whenever no frame can
be parsed from the stream (clean EOF raises the "No data found in stream"
`IOException`; truncated or malformed frames propagate the parse error). -/
theorem c4_no_frame_errors (bytes : List Nat)
    (h : ¬ ∃ p, parseDelimitedFrom bytes = Except.ok (some p)) :
    ∃ er, TaskAttemptFinishedEvent.fromProtoStream TaskAttemptFinishedEvent.mkEmpty
      bytes = Except.error er := by
  rcases hp : parseDelimitedFrom bytes with er | op
  · exact ⟨er, by simp [TaskAttemptFinishedEvent.fromProtoStream, hp]⟩
  · rcases op with _ | p
    · exact ⟨JError.ioNoData, by simp [TaskAttemptFinishedEvent.fromProtoStream, hp]⟩
    · exact absurd ⟨p, hp⟩ h

/-- A complete, parseable frame whose state ordinal (3) is outside the
`TaskAttemptState` range. -/
def p4 : TaskAttemptFinishedProto :=
  { protoBase with taskAttemptId := "t4", state := 3 }

def c4bytes : List Nat := writeDelimited (protoToBytes p4)

/-- C4 counterexample: the stream `c4bytes` contains one complete parseable
frame, yet `fromProtoStream` raises an error (decoding the parsed frame
throws) — so "errors exactly when no frame can be parsed" is false. -/
theorem c4_counterexample :
    parseDelimitedFrom c4bytes = Except.ok (some p4) ∧
      TaskAttemptFinishedEvent.fromProtoStream TaskAttemptFinishedEvent.mkEmpty
        c4bytes = Except.error JError.arrayIndexOutOfBounds :=
  ⟨rfl, rfl⟩

/-- Witness for C4 at the empty stream. -/
theorem c4_witness :
    ∃ er, TaskAttemptFinishedEvent.fromProtoStream TaskAttemptFinishedEvent.mkEmpty
      [] = Except.error er :=
  c4_no_frame_errors []
    (by rintro ⟨p, hp⟩; simp [parseDelimitedFrom] at hp)

/-! ## C8 -/

/-- A frame written by `writeDelimited` carries nothing before its varint
length prefix: no decomposition tag ++ length ++ payload with a nonempty
tag exists. -/
theorem frame_no_leading_tag (payload : List Nat) :
    ¬ ∃ t, t ≠ [] ∧
      writeDelimited payload = t ++ varint payload.length ++ payload := by
  rintro ⟨t, ht, heq⟩
  have hl := congrArg List.length heq
  simp only [writeDelimited, List.length_append] at hl
  have ht0 : t.length = 0 := by omega
  exact ht (List.eq_nil_of_length_eq_zero ht0)

/-- A minimal valid event. -/
def ev8 : TaskAttemptFinishedEvent :=
  TaskAttemptFinishedEvent.mkFull (some { repr := "a8" }) none
    0 0 (some TaskAttemptState.SUCCEEDED) none none none none none
    0 none 0 none none none none none

/-- The proto encoded from `ev8`. -/
def p8 : TaskAttemptFinishedProto := { protoBase with taskAttemptId := "a8" }

/-- C8 counterexample: the frame `toProtoStream` writes for `ev8` is exactly
the varint length prefix followed by the payload; it does not begin with an
event-type tag before the length — no decomposition
[tag][length][payload] with a nonempty tag exists. -/
theorem c8_counterexample :
    TaskAttemptFinishedEvent.toProtoStream ev8 =
        Except.ok (writeDelimited (protoToBytes p8)) ∧
      ¬ ∃ t, t ≠ [] ∧
        writeDelimited (protoToBytes p8) =
          t ++ varint (protoToBytes p8).length ++ protoToBytes p8 :=
  ⟨rfl, frame_no_leading_tag (protoToBytes p8)⟩

/-- C8 (amended): the frame written by `toProtoStream` is length-delimited —
a varint length prefix covering the payload, followed by the serialized
proto payload, with no event-type tag in front. -/
theorem c8_length_delimited (e : TaskAttemptFinishedEvent)
    (p : TaskAttemptFinishedProto)
    (htp : TaskAttemptFinishedEvent.toProto e = Except.ok p) :
    TaskAttemptFinishedEvent.toProtoStream e =
      Except.ok (varint (protoToBytes p).length ++ protoToBytes p) := by
  simp [TaskAttemptFinishedEvent.toProtoStream, htp, writeDelimited]

/-- Witness for C8 at the concrete event `ev8`. -/
theorem c8_witness :
    TaskAttemptFinishedEvent.toProtoStream ev8 =
      Except.ok (varint (protoToBytes p8).length ++ protoToBytes p8) :=
  c8_length_delimited ev8 p8 rfl

/-! ## C10 -/

/-- A complete frame whose state ordinal (5) is outside the enum range. -/
def p10a : TaskAttemptFinishedProto :=
  { protoBase with taskAttemptId := "x", state := 5 }

/-- A complete frame carrying an unrecognized error-cause name. -/
def p10b : TaskAttemptFinishedProto :=
  { protoBase with taskAttemptId := "x", errorEnum := some ("NOT_A_CAUSE") }

def frame10a : List Nat := writeDelimited (protoToBytes p10a)

def frame10b : List Nat := writeDelimited (protoToBytes p10b)

/-- C10 (confirmed): decode is not total over well-formed frames — a frame
with a state ordinal outside the `TaskAttemptState` range throws an
unguarded `ArrayIndexOutOfBoundsException`, and a frame with an
unrecognized error name throws an unguarded `IllegalArgumentException`,
rather than a structured decode error or a skip. -/
theorem c10_unknown_values_throw :
    TaskAttemptFinishedEvent.fromProtoStream TaskAttemptFinishedEvent.mkEmpty
        frame10a = Except.error JError.arrayIndexOutOfBounds ∧
      TaskAttemptFinishedEvent.fromProtoStream TaskAttemptFinishedEvent.mkEmpty
        frame10b = Except.error JError.illegalArgument :=
  ⟨rfl, rfl⟩
